import Mathlib

/-!
Verification of the startup configuration resolver of a RAMCloud storage
server (`src/ServerMain.cc`).  The C++ `main` is embedded shallowly: the
post-parse option values are the input record, the transport layer is an
abstract behaviour record, and the run is a pure function producing an exit
code, a trace of observable events (log lines, transport calls, the sizing
step) and the final `ServerConfig` when one is handed to the server.
-/

namespace RAMCloudServerMain

/-- Service kinds that a server process can provide
(`MASTER_SERVICE`, `BACKUP_SERVICE`, `MEMBERSHIP_SERVICE`, `PING_SERVICE`). -/
inductive ServiceKind where
  | master
  | backup
  | membership
  | ping
deriving DecidableEq, Repr

/-- Error raised by the role-flag mutual-exclusion check
(`DIE("Can't specify both -B and -M options")`). -/
inductive ConfigError where
  | configConflict
deriving DecidableEq, Repr

/-- Error raised by memory-size resolution on a malformed directive. -/
inductive SizeError where
  | invalidSizeSpec
deriving DecidableEq, Repr

/-- `main` assigns `config.services` after the conflict check:
both flags → conflict; `masterOnly` → `{MASTER, MEMBERSHIP, PING}`;
`backupOnly` → `{BACKUP, MEMBERSHIP, PING}`; neither → all four
(ServerMain.cc lines 114-126). -/
def resolveServices (masterOnly backupOnly : Bool) :
    Except ConfigError (List ServiceKind) :=
  if masterOnly && backupOnly then
    .error .configConflict
  else if masterOnly then
    .ok [.master, .membership, .ping]
  else if backupOnly then
    .ok [.backup, .membership, .ping]
  else
    .ok [.master, .backup, .membership, .ping]

/-- Value of a decimal digit run, most significant first. -/
def digitsToNat (cs : List Char) : Nat :=
  cs.foldl (fun a c => a * 10 + (c.toNat - 48)) 0

/-- Parse a non-empty all-digit character run as a non-negative decimal
integer; anything else (empty, sign characters, letters) is malformed. -/
def parseDecimal (cs : List Char) : Option Nat :=
  if cs ≠ [] ∧ cs.all Char.isDigit then some (digitsToNat cs) else none

/-- Modelled from the spec: `MemorySizeResolver`, the body of
`ServerConfig::setLogAndHashTableSize` (only its call site is in
`src/`).  A directive ending in `%` with percentage `p`, `0 < p ≤ 100`,
resolves to `round(total * p / 100)` bytes (here `(total * p + 50) / 100`
in exact natural arithmetic); a bare non-negative integer `n` resolves to
`n * 1048576` bytes; everything else is an `InvalidSizeSpec`. -/
def resolveSizeChars (cs : List Char) (total : Nat) : Except SizeError Nat :=
  if cs.getLast? = some '%' then
    match parseDecimal cs.dropLast with
    | some p =>
        if 0 < p ∧ p ≤ 100 then .ok ((total * p + 50) / 100)
        else .error .invalidSizeSpec
    | none => .error .invalidSizeSpec
  else
    match parseDecimal cs with
    | some n => .ok (n * 1048576)
    | none => .error .invalidSizeSpec

/-- Resolve one size directive string against the total system memory. -/
def resolveSize (s : String) (total : Nat) : Except SizeError Nat :=
  resolveSizeChars s.data total

/-- Modelled from the spec: `ServerConfig::setLogAndHashTableSize`
(implementation not in `src/`) resolves the master-log directive and the
hash-table directive independently against the same total; either failure
is fatal. -/
def setLogAndHashTableSize (masterTotalMemory hashTableMemory : String)
    (total : Nat) : Except SizeError (Nat × Nat) :=
  match resolveSize masterTotalMemory total, resolveSize hashTableMemory total with
  | .ok logBytes, .ok hashBytes => .ok (logBytes, hashBytes)
  | .error e, _ => .error e
  | _, .error e => .error e

/-- Modelled from the spec: the replica-reuse matching rule (the backup
logic is not in `src/`; the `clusterName` option help text in
ServerMain.cc lines 88-101 documents it).  A stored replica's tag matches
the current process's tag only when the strings are equal, except that
`__unnamed__` never matches any cluster name, even itself. -/
def clusterNameMatches (stored current : String) : Bool :=
  if stored = "__unnamed__" ∨ current = "__unnamed__" then false
  else stored == current

/-- Typed default value of a command-line option. -/
inductive OptValue where
  | boolVal : Bool → OptValue
  | intVal : Int → OptValue
  | natVal : Nat → OptValue
  | strVal : String → OptValue
deriving DecidableEq, Repr

/-- One declared command-line option: long name, optional one-letter
alias, and the value bound when the flag is absent from argv (a
`bool_switch` defaults to `false`; an option declared without
`default_value` has none). -/
structure OptionDecl where
  name : String
  shortAlias : Option Char
  defaultVal : Option OptValue
deriving DecidableEq, Repr

/-- Backup replica-placement strategy enumerators.  The enum declaration
is outside `src/`; the numeric mapping is the one the `backupStrategy`
option's own help text states: "0 random refine min, 1 random refine avg,
2 even distribution, 3 uniform random". -/
def RANDOM_REFINE_MIN : Int := 0

/-- Second enumerator of the backup strategy enum: random refine avg. -/
def RANDOM_REFINE_AVG : Int := 1

/-- Third enumerator of the backup strategy enum: even distribution. -/
def EVEN_DISTRIBUTION : Int := 2

/-- Fourth enumerator of the backup strategy enum: uniform random. -/
def UNIFORM_RANDOM : Int := 3

/-- The `serverOptions` description built in `main`
(ServerMain.cc lines 42-101), in declaration order. -/
def serverOptions : List OptionDecl :=
  [ ⟨"backupInMemory", some 'm', some (.boolVal false)⟩,
    ⟨"backupOnly", some 'B', some (.boolVal false)⟩,
    ⟨"backupStrategy", none, some (.intVal RANDOM_REFINE_AVG)⟩,
    ⟨"disableLogCleaner", some 'd', some (.boolVal false)⟩,
    ⟨"file", some 'f', some (.strVal "/var/tmp/backup.log")⟩,
    ⟨"hashTableMemory", some 'h', some (.strVal "10%")⟩,
    ⟨"masterOnly", some 'M', some (.boolVal false)⟩,
    ⟨"totalMasterMemory", some 't', some (.strVal "10%")⟩,
    ⟨"replicas", some 'r', some (.natVal 0)⟩,
    ⟨"segmentFrames", none, some (.natVal 512)⟩,
    ⟨"detectFailures", none, some (.boolVal true)⟩,
    ⟨"clusterName", none, none⟩ ]

/-- The value an option binds when its flag is absent from argv. -/
def optionDefault (name : String) : Option OptValue :=
  match serverOptions.find? (fun o => o.name == name) with
  | some o => o.defaultVal
  | none => none

/-- The command-line echo loop of `main` (ServerMain.cc lines 106-111):
`args` starts empty; at index `i`, append a space first unless `i = 0`,
then append `argv[i]`. -/
def buildArgsLoop : List String → Nat → String → String
  | [], _, args => args
  | a :: rest, i, args =>
      buildArgsLoop rest (i + 1) ((if i ≠ 0 then args ++ " " else args) ++ a)

/-- The string `main` logs as `"Command line: %s"`. -/
def buildArgs (argv : List String) : String :=
  buildArgsLoop argv 0 ""

/-- Spec-side reading of the command-line echo: the argv entries joined
by one space each. -/
def joinedBySpaces : List String → String
  | [] => ""
  | [a] => a
  | a :: b :: rest => a ++ " " ++ joinedBySpaces (b :: rest)

/-- The resolved server configuration (`ServerConfig`), restricted to the
fields `main` binds or mutates.  `masterLogBytes` and
`masterHashTableBytes` are `none` until `setLogAndHashTableSize` computes
them. -/
structure ServerConfig where
  services : List ServiceKind
  localLocator : String
  coordinatorLocator : String
  clusterName : String
  backupInMemory : Bool
  backupStrategy : Int
  backupFile : String
  numSegmentFrames : Nat
  numReplicas : Nat
  disableLogCleaner : Bool
  detectFailures : Bool
  masterLogBytes : Option Nat
  masterHashTableBytes : Option Nat
deriving DecidableEq, Repr

/-- The inputs of one run of `main`: the raw argv (used only for the
command-line echo) and the values the option parser binds from it,
together with the shared options (`getLocalLocator`,
`getCoordinatorLocator`) and the host's total system memory that size
resolution consults. -/
structure MainInput where
  argv : List String
  masterOnly : Bool
  backupOnly : Bool
  masterTotalMemory : String
  hashTableMemory : String
  clusterName : String
  backupInMemory : Bool
  backupStrategy : Int
  backupFile : String
  numSegmentFrames : Nat
  numReplicas : Nat
  disableLogCleaner : Bool
  detectFailures : Bool
  localLocator : String
  coordinatorLocator : String
  totalSystemMemory : Nat
deriving DecidableEq, Repr

/-- Abstract behaviour of the transport collaborator:
whether `transportManager->initialize` succeeds, and the string
`getListeningLocatorsString()` reports afterwards. -/
structure TransportBehavior where
  initOk : Bool
  listeningLocators : String
deriving DecidableEq, Repr

/-- Observable events of one run, in program order: the NOTICE
command-line echo, the fatal role-conflict `DIE`, the two transport
manager calls, the NOTICE listening line, the NOTICE replica-count line,
the invocation of `setLogAndHashTableSize`, and the handoff to
`server.run()`. -/
inductive Event where
  | logCommandLine : String → Event
  | dieConflict : Event
  | transportSetTimeout : Event
  | transportInit : String → Event
  | logListening : String → Event
  | logReplicas : Nat → Event
  | sizing : String → String → Event
  | serverRun : Event
deriving DecidableEq, Repr

/-- Result of one run of `main`: the process exit code, the event trace,
and the configuration handed to `Server` (none when startup aborted). -/
structure MainResult where
  exit : Nat
  trace : List Event
  config : Option ServerConfig
deriving DecidableEq, Repr

/-- Shallow embedding of `main` (ServerMain.cc lines 30-171).  Parsing
has already bound `inp`; every thrown exception is caught by the
outermost handlers, which return 1.  `server.run()` is modelled as
returning, so the successful path keeps the `return 0` of line 155. -/
def serverMain (inp : MainInput) (tb : TransportBehavior) : MainResult :=
  let cmdLog := Event.logCommandLine (buildArgs inp.argv)
  match resolveServices inp.masterOnly inp.backupOnly with
  | .error _ =>
      { exit := 1, trace := [cmdLog, .dieConflict], config := none }
  | .ok services =>
      if tb.initOk then
        let config : ServerConfig :=
          { services := services
            localLocator := tb.listeningLocators
            coordinatorLocator := inp.coordinatorLocator
            clusterName := inp.clusterName
            backupInMemory := inp.backupInMemory
            backupStrategy := inp.backupStrategy
            backupFile := inp.backupFile
            numSegmentFrames := inp.numSegmentFrames
            numReplicas := inp.numReplicas
            disableLogCleaner := inp.disableLogCleaner
            detectFailures := inp.detectFailures
            masterLogBytes := none
            masterHashTableBytes := none }
        if !inp.backupOnly then
          match setLogAndHashTableSize inp.masterTotalMemory
              inp.hashTableMemory inp.totalSystemMemory with
          | .ok (logBytes, hashBytes) =>
              { exit := 0
                trace := [cmdLog, .transportSetTimeout,
                          .transportInit inp.localLocator,
                          .logListening tb.listeningLocators,
                          .logReplicas inp.numReplicas,
                          .sizing inp.masterTotalMemory inp.hashTableMemory,
                          .serverRun]
                config := some { config with
                  masterLogBytes := some logBytes
                  masterHashTableBytes := some hashBytes } }
          | .error _ =>
              { exit := 1
                trace := [cmdLog, .transportSetTimeout,
                          .transportInit inp.localLocator,
                          .logListening tb.listeningLocators,
                          .logReplicas inp.numReplicas,
                          .sizing inp.masterTotalMemory inp.hashTableMemory]
                config := none }
        else
          { exit := 0
            trace := [cmdLog, .transportSetTimeout,
                      .transportInit inp.localLocator,
                      .logListening tb.listeningLocators,
                      .serverRun]
            config := some config }
      else
        { exit := 1
          trace := [cmdLog, .transportSetTimeout,
                    .transportInit inp.localLocator]
          config := none }

/-- Recognizes the event of `transportManager->initialize`. -/
def isTransportInitEvent : Event → Bool
  | .transportInit _ => true
  | _ => false

/-- Recognizes either transport manager call. -/
def isTransportEvent : Event → Bool
  | .transportInit _ => true
  | .transportSetTimeout => true
  | _ => false

/-- Recognizes the invocation of `setLogAndHashTableSize`. -/
def isSizingEvent : Event → Bool
  | .sizing _ _ => true
  | _ => false

/-- Recognizes the NOTICE replica-count log line. -/
def isLogReplicasEvent : Event → Bool
  | .logReplicas _ => true
  | _ => false

/-- Index of the first event satisfying `p`, if any. -/
def firstIdx (p : Event → Bool) : List Event → Option Nat
  | [] => none
  | e :: rest => if p e then some 0 else (firstIdx p rest).map (· + 1)

/-- The tail of a space-join: a leading space before every entry. -/
def joinTail : List String → String
  | [] => ""
  | a :: rest => " " ++ a ++ joinTail rest

theorem buildArgsLoop_succ (l : List String) (i : Nat) (args : String) :
    buildArgsLoop l (i + 1) args = args ++ joinTail l := by
  induction l generalizing i args with
  | nil => simp [buildArgsLoop, joinTail, String.append_empty]
  | cons a rest ih =>
      simp only [buildArgsLoop, joinTail, if_pos (Nat.succ_ne_zero i)]
      rw [ih]
      ext1
      simp

theorem joinedBySpaces_cons (a : String) (l : List String) :
    joinedBySpaces (a :: l) = a ++ joinTail l := by
  induction l generalizing a with
  | nil => simp [joinedBySpaces, joinTail, String.append_empty]
  | cons b rest ih =>
      simp only [joinedBySpaces, joinTail]
      rw [ih b]
      ext1
      simp

/-- The command-line echo loop produces exactly the argv entries joined
by single spaces. -/
theorem buildArgs_eq_joinedBySpaces (argv : List String) :
    buildArgs argv = joinedBySpaces argv := by
  cases argv with
  | nil => rfl
  | cons a rest =>
      rw [joinedBySpaces_cons]
      show buildArgsLoop rest (0 + 1) ((if (0 : Nat) ≠ 0 then "" ++ " " else "") ++ a) =
        a ++ joinTail rest
      rw [if_neg (by simp), buildArgsLoop_succ, String.empty_append]

/-- A transport behaviour whose initialization succeeds and whose
effective listening locator differs from any requested one. -/
def exTB : TransportBehavior := ⟨true, "infrc:host=10.0.0.1,port=11100"⟩

/-- A default-flag run: no role flags, default size directives, 8 GiB of
system memory. -/
def exIn : MainInput :=
  { argv := ["server"]
    masterOnly := false
    backupOnly := false
    masterTotalMemory := "10%"
    hashTableMemory := "10%"
    clusterName := ""
    backupInMemory := false
    backupStrategy := 1
    backupFile := "/var/tmp/backup.log"
    numSegmentFrames := 512
    numReplicas := 0
    disableLogCleaner := false
    detectFailures := true
    localLocator := "tcp:host=0.0.0.0,port=0"
    coordinatorLocator := "tcp:host=c"
    totalSystemMemory := 8589934592 }

/-- The default run with both role flags set (`-B -M`). -/
def exInConflict : MainInput := { exIn with masterOnly := true, backupOnly := true }

/-- The default run in backup-only mode (`-B`). -/
def exInBackup : MainInput := { exIn with backupOnly := true }

/-- The default run with a malformed master-memory directive. -/
def exInAbc : MainInput := { exIn with masterTotalMemory := "abc" }

/-- The configuration the default-flag run `serverMain exIn exTB` hands to
the server: all four services, the transport's effective locator, and both
master sizes resolved to `round(8589934592 * 10 / 100)`. -/
def exCfg : ServerConfig :=
  { services := [.master, .backup, .membership, .ping]
    localLocator := "infrc:host=10.0.0.1,port=11100"
    coordinatorLocator := "tcp:host=c"
    clusterName := ""
    backupInMemory := false
    backupStrategy := 1
    backupFile := "/var/tmp/backup.log"
    numSegmentFrames := 512
    numReplicas := 0
    disableLogCleaner := false
    detectFailures := true
    masterLogBytes := some 858993459
    masterHashTableBytes := some 858993459 }

/-- C2: for every pair of role flags, both set fails with `ConfigConflict`;
only `masterOnly` gives `{MASTER, MEMBERSHIP, PING}`; only `backupOnly`
gives `{BACKUP, MEMBERSHIP, PING}`; neither gives all four services. -/
theorem C2_serviceSets :
    resolveServices true true = .error .configConflict ∧
    resolveServices true false = .ok [.master, .membership, .ping] ∧
    resolveServices false true = .ok [.backup, .membership, .ping] ∧
    resolveServices false false = .ok [.master, .backup, .membership, .ping] :=
  ⟨rfl, rfl, rfl, rfl⟩

/-- C3 counterexample: the declared default of the `backupStrategy` option
is not 0 — the source passes `default_value(RANDOM_REFINE_AVG)`, which the
option's own help text numbers as 1, not 0 (random refine min). -/
theorem C3_counterexample :
    optionDefault "backupStrategy" ≠ some (OptValue.intVal 0) := by decide

/-- C3 amended: the default value of the `backupStrategy` option, when the
flag is absent from argv, is `RANDOM_REFINE_AVG`, i.e. 1 (random refine
avg). -/
theorem C3_backupStrategyDefault :
    optionDefault "backupStrategy" = some (OptValue.intVal RANDOM_REFINE_AVG) ∧
    RANDOM_REFINE_AVG = 1 := by decide

/-- C9: under the replica-reuse matching rule the cluster name
`__unnamed__` matches no tag, in either direction, including itself. -/
theorem C9_unnamedMatchesNothing (t : String) :
    clusterNameMatches "__unnamed__" t = false ∧
    clusterNameMatches t "__unnamed__" = false := by
  constructor <;> simp [clusterNameMatches]

theorem mem_of_getLast?_eq {l : List Char} {c : Char}
    (h : l.getLast? = some c) : c ∈ l := by
  induction l with
  | nil => simp at h
  | cons a as ih =>
      cases as with
      | nil =>
          simp only [List.getLast?_singleton, Option.some.injEq] at h
          simp [h]
      | cons b bs =>
          rw [List.getLast?_cons_cons] at h
          exact List.mem_cons_of_mem _ (ih h)

theorem getLast?_ne_percent_of_digits {l : List Char}
    (hdig : l.all Char.isDigit = true) : l.getLast? ≠ some '%' := by
  intro hc
  have hmem : '%' ∈ l := mem_of_getLast?_eq hc
  have : Char.isDigit '%' = true := List.all_eq_true.mp hdig '%' hmem
  simp [Char.isDigit] at this

/-- C5: resolving the directive `"p%"` (digits of `p` followed by `%`,
with `0 < p ≤ 100`) against total memory `total` yields
`round(total * p / 100)` bytes, and resolving a bare non-negative decimal
integer `n` yields `n * 1048576` bytes independently of `total`. -/
theorem C5_sizeResolution (total : Nat) :
    (∀ (s : String) (p : Nat), parseDecimal s.data = some p → 0 < p → p ≤ 100 →
      resolveSize (s ++ "%") total = .ok ((total * p + 50) / 100)) ∧
    (∀ (s : String) (n : Nat), parseDecimal s.data = some n →
      resolveSize s total = .ok (n * 1048576)) := by
  constructor
  · intro s p hp h1 h2
    have hd : (s ++ "%").data = s.data ++ ['%'] := by
      rw [String.data_append]
    simp [resolveSize, resolveSizeChars, hd, List.getLast?_concat,
      List.dropLast_concat, hp, h1, h2]
  · intro s n hn
    have hcond : s.data ≠ [] ∧ s.data.all Char.isDigit := by
      by_contra hc
      rw [parseDecimal, if_neg hc] at hn
      exact Option.noConfusion hn
    have hlast : s.data.getLast? ≠ some '%' :=
      getLast?_ne_percent_of_digits hcond.2
    simp [resolveSize, resolveSizeChars, if_neg hlast, hn]

/-- C5 witness: `"37%"` against 1000 bytes resolves to 370 bytes, and the
bare integer `"25"` resolves to `25 * 1048576` bytes. -/
theorem C5_sizeResolution_witness :
    resolveSize ("37" ++ "%") 1000 = .ok ((1000 * 37 + 50) / 100) ∧
    resolveSize "25" 999 = .ok (25 * 1048576) :=
  ⟨(C5_sizeResolution 1000).1 "37" 37 (by decide) (by decide) (by decide),
   (C5_sizeResolution 999).2 "25" 25 (by decide)⟩

/-- C6: the directives `"0%"`, `"101%"`, `"-5"` and `"abc"` each resolve
to `InvalidSizeSpec` whatever the total memory, and such a failure is
fatal to the bootstrap: any run that is not backup-only and whose
master-memory directive is invalid exits with code 1 and hands no
configuration to the server. -/
theorem C6_invalidSpecs :
    (∀ total : Nat,
      resolveSize "0%" total = .error .invalidSizeSpec ∧
      resolveSize "101%" total = .error .invalidSizeSpec ∧
      resolveSize "-5" total = .error .invalidSizeSpec ∧
      resolveSize "abc" total = .error .invalidSizeSpec) ∧
    (∀ (inp : MainInput) (tb : TransportBehavior),
      inp.backupOnly = false →
      resolveSize inp.masterTotalMemory inp.totalSystemMemory
        = .error .invalidSizeSpec →
      (serverMain inp tb).exit = 1 ∧ (serverMain inp tb).config = none) := by
  constructor
  · exact fun total => ⟨rfl, rfl, rfl, rfl⟩
  · intro inp tb hb hsz
    have hset : setLogAndHashTableSize inp.masterTotalMemory
        inp.hashTableMemory inp.totalSystemMemory = .error .invalidSizeSpec := by
      rw [setLogAndHashTableSize, hsz]
      cases hr : resolveSize inp.hashTableMemory inp.totalSystemMemory with
      | ok v => rfl
      | error e => cases e; rfl
    simp only [serverMain]
    split
    · exact ⟨rfl, rfl⟩
    · split
      · rw [hb]
        simp only [Bool.not_false, if_pos]
        rw [hset]
        exact ⟨rfl, rfl⟩
      · exact ⟨rfl, rfl⟩

/-- C6 witness: `"0%"` fails against total 7, and the default run with
master directive `"abc"` exits with code 1. -/
theorem C6_invalidSpecs_witness :
    resolveSize "0%" 7 = .error .invalidSizeSpec ∧
    (serverMain exInAbc exTB).exit = 1 :=
  ⟨(C6_invalidSpecs.1 7).1, (C6_invalidSpecs.2 exInAbc exTB rfl rfl).1⟩

theorem serverMain_trace_shape (inp : MainInput) (tb : TransportBehavior) :
    firstIdx isSizingEvent (serverMain inp tb).trace = none ∨
    (firstIdx isSizingEvent (serverMain inp tb).trace = some 5 ∧
     firstIdx isTransportInitEvent (serverMain inp tb).trace = some 2) := by
  simp only [serverMain]
  split
  · left
    simp [firstIdx, isSizingEvent]
  · split
    · split
      · split
        · right
          constructor <;> simp [firstIdx, isSizingEvent, isTransportInitEvent]
        · right
          constructor <;> simp [firstIdx, isSizingEvent, isTransportInitEvent]
      · left
        simp [firstIdx, isSizingEvent]
    · left
      simp [firstIdx, isSizingEvent]

/-- C1 counterexample: in the default-flag run the transport-binding call
stands at trace index 2 while the memory-sizing step stands at index 5, so
sizing does not occur before transport binding. -/
theorem C1_counterexample :
    firstIdx isTransportInitEvent (serverMain exIn exTB).trace = some 2 ∧
    firstIdx isSizingEvent (serverMain exIn exTB).trace = some 5 ∧
    2 < 5 := by decide

/-- C1 amended: in every run of the bootstrapper the transport-binding
step occurs before the memory-sizing step — sizing never begins unless
transport binding already stands earlier in the trace; the realized order
is PARSING, VALIDATING, TRANSPORT_BINDING, SIZING, FINALIZED. -/
theorem C1_bindingBeforeSizing (inp : MainInput) (tb : TransportBehavior)
    (j : Nat)
    (hj : firstIdx isSizingEvent (serverMain inp tb).trace = some j) :
    (firstIdx isTransportInitEvent (serverMain inp tb).trace).getD j < j := by
  rcases serverMain_trace_shape inp tb with h | ⟨h1, h2⟩
  · rw [h] at hj
    exact Option.noConfusion hj
  · rw [hj] at h1
    obtain rfl : j = 5 := Option.some.inj h1
    rw [h2]
    decide

/-- C1 amended witness: the default-flag run sizes memory at trace index
5, after the transport-binding call. -/
theorem C1_bindingBeforeSizing_witness :
    (firstIdx isTransportInitEvent (serverMain exIn exTB).trace).getD 5 < 5 :=
  C1_bindingBeforeSizing exIn exTB 5 (by decide)

/-- C4: when both role flags are given, the run exits with code 1 after
logging the role conflict, and no transport call of any kind appears in
the trace — the transport manager is never initialized and no endpoint is
opened. -/
theorem C4_conflictAborts (inp : MainInput) (tb : TransportBehavior)
    (hm : inp.masterOnly = true) (hb : inp.backupOnly = true) :
    (serverMain inp tb).exit = 1 ∧
    Event.dieConflict ∈ (serverMain inp tb).trace ∧
    (serverMain inp tb).trace.all (fun e => !isTransportEvent e) = true := by
  have h : resolveServices inp.masterOnly inp.backupOnly = .error .configConflict := by
    rw [hm, hb]
    rfl
  simp only [serverMain]
  rw [h]
  exact ⟨rfl, by simp, by simp [isTransportEvent]⟩

/-- C4 witness: the `-B -M` run exits 1, logs the conflict, and performs
no transport call. -/
theorem C4_conflictAborts_witness :
    (serverMain exInConflict exTB).exit = 1 ∧
    Event.dieConflict ∈ (serverMain exInConflict exTB).trace ∧
    (serverMain exInConflict exTB).trace.all (fun e => !isTransportEvent e) = true :=
  C4_conflictAborts exInConflict exTB rfl rfl

/-- C7: a backup-only run performs no memory sizing and emits no
replica-count log line, and any configuration it hands to the server
still has both master byte counts unset. -/
theorem C7_backupOnlySkipsSizing (inp : MainInput) (tb : TransportBehavior)
    (hb : inp.backupOnly = true) (hm : inp.masterOnly = false) :
    (serverMain inp tb).trace.all
      (fun e => !isSizingEvent e && !isLogReplicasEvent e) = true ∧
    (serverMain inp tb).config.all
      (fun cfg => cfg.masterLogBytes.isNone && cfg.masterHashTableBytes.isNone)
      = true := by
  have h : resolveServices inp.masterOnly true
      = .ok [.backup, .membership, .ping] := by
    rw [hm]
    rfl
  by_cases ht : tb.initOk = true
  · simp [serverMain, h, ht, hb, isSizingEvent, isLogReplicasEvent, Option.all]
  · simp [serverMain, hb, h, ht, isSizingEvent, isLogReplicasEvent, Option.all]

/-- C7 witness: the backup-only run with a working transport skips sizing
and the replica log and hands over a configuration with unset master byte
counts. -/
theorem C7_backupOnlySkipsSizing_witness :
    (serverMain exInBackup exTB).trace.all
      (fun e => !isSizingEvent e && !isLogReplicasEvent e) = true ∧
    (serverMain exInBackup exTB).config.all
      (fun cfg => cfg.masterLogBytes.isNone && cfg.masterHashTableBytes.isNone)
      = true :=
  C7_backupOnlySkipsSizing exInBackup exTB rfl rfl

/-- C8: whenever a run hands a configuration to the server, its
`localLocator` is the transport layer's effective listening-locator
string, whatever locator the user requested. -/
theorem C8_effectiveLocator (inp : MainInput) (tb : TransportBehavior)
    (cfg : ServerConfig) (h : (serverMain inp tb).config = some cfg) :
    cfg.localLocator = tb.listeningLocators := by
  simp only [serverMain] at h
  split at h
  · exact Option.noConfusion h
  · split at h
    · split at h
      · split at h
        · obtain rfl := (Option.some.inj h).symm
          rfl
        · exact Option.noConfusion h
      · obtain rfl := (Option.some.inj h).symm
        rfl
    · exact Option.noConfusion h

/-- C8 witness: the default-flag run requested
`tcp:host=0.0.0.0,port=0` but its final configuration carries the
transport's effective locator. -/
theorem C8_effectiveLocator_witness :
    (serverMain exIn exTB).config = some exCfg ∧
    exCfg.localLocator = exTB.listeningLocators :=
  ⟨by decide, C8_effectiveLocator exIn exTB exCfg (by decide)⟩

/-- C10: every run's very first trace event is the NOTICE line echoing
the full command line, the argv entries joined by one space each — it is
emitted before the role-conflict check, so it appears also in runs that
abort with the conflict. -/
theorem C10_commandLineEcho (inp : MainInput) (tb : TransportBehavior) :
    (serverMain inp tb).trace.head? =
      some (Event.logCommandLine (joinedBySpaces inp.argv)) := by
  simp only [serverMain]
  rw [← buildArgs_eq_joinedBySpaces]
  split
  · rfl
  · split
    · split
      · split <;> rfl
      · rfl
    · rfl

end RAMCloudServerMain
